import Mathlib

/-!
Shallow embedding of `redmine/__init__.py` (the `Redmine` entry-point class
of the python-redmine client library), together with theorems checking the
natural-language specification against it.

Python dictionaries are modelled as association lists with first-match
lookup and in-place key update; JSON values as an inductive type; the
external HTTP client (`requests`) and the filesystem as explicit oracle
functions passed to the embedded methods.  Python-level exceptions that
the library itself does not define (TypeError, KeyError, ValueError)
are collapsed into a single `pyError` constructor carrying a message.
-/

namespace Redminelib

/-- Association-list lookup, first match wins (Python dict lookup). -/
def dLookup {α : Type} : List (String × α) → String → Option α
  | [], _ => none
  | p :: d, k => if p.1 = k then some p.2 else dLookup d k

/-- Python `k in d`. -/
def dContains {α : Type} (d : List (String × α)) (k : String) : Bool :=
  (dLookup d k).isSome

/-- Python `d[k] = v`: overwrite in place when present, append otherwise. -/
def dInsert {α : Type} (d : List (String × α)) (k : String) (v : α) :
    List (String × α) :=
  if dContains d k then
    d.map (fun p => if p.1 = k then (k, v) else p)
  else
    d ++ [(k, v)]

/-- Python `dict(base, **over)`: all of `base`, updated by `over`. -/
def dMerge {α : Type} (base over : List (String × α)) : List (String × α) :=
  over.foldl (fun acc p => dInsert acc p.1 p.2) base

/-- JSON values, as produced by `response.json()` / consumed by `json.dumps`. -/
inductive JVal : Type where
  | null : JVal
  | bool : Bool → JVal
  | num : Int → JVal
  | str : String → JVal
  | arr : List JVal → JVal
  | obj : List (String × JVal) → JVal


/-- Python subscript `j[k]` on a decoded JSON value; `none` models the
KeyError/TypeError raised when `j` is not an object holding `k`. -/
def jGet (j : JVal) (k : String) : Option JVal :=
  match j with
  | .obj kvs => dLookup kvs k
  | _ => none

mutual
/-- `json.dumps` on a JSON value. -/
def JVal.dumps : JVal → String
  | .null => "null"
  | .bool b => if b then "true" else "false"
  | .num n => toString n
  | .str s => "\"" ++ s ++ "\""
  | .arr xs => "[" ++ dumpsArr xs ++ "]"
  | .obj kvs => "\x7b" ++ dumpsObj kvs ++ "\x7d"

/-- Comma-separated serialization of a JSON array's elements. -/
def dumpsArr : List JVal → String
  | [] => ""
  | [x] => JVal.dumps x
  | x :: y :: rest => JVal.dumps x ++ ", " ++ dumpsArr (y :: rest)

/-- Comma-separated serialization of a JSON object's entries. -/
def dumpsObj : List (String × JVal) → String
  | [] => ""
  | [kv] => "\"" ++ kv.1 ++ "\": " ++ JVal.dumps kv.2
  | kv :: kv2 :: rest =>
      "\"" ++ kv.1 ++ "\": " ++ JVal.dumps kv.2 ++ ", " ++ dumpsObj (kv2 :: rest)
end

/-- The `data` argument of `Redmine.request`: `None`, a dict, bytes, or a
file-like stream (docstring: "dict, bytes or file-like object"). -/
inductive PyData : Type where
  | none : PyData
  | dict : List (String × JVal) → PyData
  | bytes : String → PyData
  | stream : String → PyData


/-- Python `data or {}`: falsy data (`None`, empty dict, empty bytes) is
replaced by an empty dict; everything else passes through. -/
def pyDataOrEmpty : PyData → PyData
  | .none => .dict []
  | .dict [] => .dict []
  | .bytes "" => .dict []
  | d => d

/-- `json.dumps(data)`: `None` serializes to `"null"`, dicts serialize
recursively; bytes and file objects are not JSON serializable, so
`none` models the TypeError `json.dumps` raises on them. -/
def pyDumps : PyData → Option String
  | .none => some "null"
  | .dict kvs => some (JVal.dumps (.obj kvs))
  | .bytes _ => Option.none
  | .stream _ => Option.none

/-- The whitespace bytes stripped by Python's `bytes.strip()`. -/
def isPyWhitespace (c : Char) : Bool :=
  c = ' ' ∨ c = '\t' ∨ c = '\n' ∨ c = '\r' ∨ c = '\x0b' ∨ c = '\x0c'

/-- Python `not response.content.strip()`: the body is empty once leading
and trailing whitespace is stripped, i.e. all of it is whitespace. -/
def contentBlank (s : String) : Bool :=
  s.data.all isPyWhitespace

/-- A query-string parameter value: string or boolean (`stream=True`). -/
inductive PVal : Type where
  | s : String → PVal
  | b : Bool → PVal


/-- An HTTP response as seen by `Redmine.request`: status code, raw body
(`response.content`), and the result of `response.json()` (`none` models
the ValueError raised when the body is not valid JSON). -/
structure Response : Type where
  status_code : Nat
  content : String
  json : Option JVal


/-- The exception taxonomy of `redmine.exceptions` (only the classes the
embedded code raises), plus `pyError` collapsing Python's own
TypeError/KeyError/ValueError with a tag for which one. -/
inductive RedmineExc : Type where
  | AuthError
  | ForbiddenError
  | ResourceNotFoundError
  | ConflictError
  | ImpersonateError
  | RequestEntityTooLargeError
  | ValidationError : String → RedmineExc
  | ServerError
  | UnknownError : Nat → RedmineExc
  | JSONDecodeError : Response → RedmineExc
  | VersionMismatchError : String → RedmineExc
  | NoFileError
  | FileUrlError
  | pyError : String → RedmineExc


/-- What `Redmine.request` returns on success: the raw response object,
the literal `True`, or a decoded JSON body. -/
inductive ReqResult : Type where
  | raw : Response → ReqResult
  | bool : Bool → ReqResult
  | json : JVal → ReqResult


/-- One element of the 422 body's `errors` list: a string stays as is, a
list of strings is joined with `': '`; anything else makes `str.join`
raise TypeError (`none`). -/
def joinErrorItem : JVal → Option String
  | .str s => some s
  | .arr xs =>
      (xs.mapM (fun x => match x with | JVal.str s => some s | _ => Option.none)).map
        (String.intercalate ": ")
  | _ => Option.none

/-- `', '.join(': '.join(e) if isinstance(e, list) else e for e in errors)`. -/
def joinErrors (es : List JVal) : Option String :=
  (es.mapM joinErrorItem).map (String.intercalate ", ")

/-- A value in the keyword-argument dict handed to the HTTP client:
serialized body string, headers dict, params dict, request data, or the
basic-auth pair. -/
inductive KwVal : Type where
  | str : String → KwVal
  | hDict : List (String × String) → KwVal
  | pDict : List (String × PVal) → KwVal
  | pydata : PyData → KwVal
  | auth : Option String → Option String → KwVal


/-- The `Redmine` entry-point object: the connection configuration set by
`__init__`.  `requests` is the extra-connection-options dict merged into
every outgoing request's keyword arguments. -/
structure Redmine : Type where
  url : String
  key : Option String
  ver : Option String
  username : Option String
  password : Option String
  requests : List (String × KwVal)
  impersonate : Option String
  date_format : String
  datetime_format : String
  raise_attr_exception : Bool
  resource_paths : Option (List String)

/-- Read `kwargs['headers']` as a headers dict (it is always set to one
by the `dict(self.requests, **{...})` merge before being read). -/
def getHDict (kw : List (String × KwVal)) (k : String) : List (String × String) :=
  match dLookup kw k with
  | some (.hDict d) => d
  | _ => []

/-- Read `kwargs['params']` as a params dict. -/
def getPDict (kw : List (String × KwVal)) (k : String) : List (String × PVal) :=
  match dLookup kw k with
  | some (.pDict d) => d
  | _ => []

/-- Line 129-133 of `Redmine.request`: `kwargs = dict(self.requests,
**{'headers': headers or {}, 'params': params or {}, 'data': data or {}})`. -/
def Redmine.baseKwargs (self : Redmine)
    (headers : Option (List (String × String))) (params : Option (List (String × PVal)))
    (data : PyData) : List (String × KwVal) :=
  dMerge self.requests
    [("headers", .hDict (headers.getD [])),
     ("params", .pDict (params.getD [])),
     ("data", .pydata (pyDataOrEmpty data))]

/-- Lines 135-137: serialize the body and set the Content-Type header for
`post`/`put` requests without a caller-supplied Content-Type; `json.dumps`
raises TypeError on non-serializable data. -/
def serializeStep (method : String) (data : PyData) (kw : List (String × KwVal)) :
    Except RedmineExc (List (String × KwVal)) :=
  if ¬ dContains (getHDict kw "headers") "Content-Type"
      ∧ (method = "post" ∨ method = "put") then
    match pyDumps data with
    | some s =>
        .ok (dInsert (dInsert kw "data" (.str s)) "headers"
          (KwVal.hDict (dInsert (getHDict kw "headers") "Content-Type" "application/json")))
    | none => .error (.pyError "TypeError: not JSON serializable")
  else
    .ok kw

/-- Lines 139-140: add the `X-Redmine-Switch-User` header when
impersonation is configured. -/
def Redmine.impersonateStep (self : Redmine) (kw : List (String × KwVal)) :
    List (String × KwVal) :=
  match self.impersonate with
  | some u =>
      dInsert kw "headers"
        (.hDict (dInsert (getHDict kw "headers") "X-Redmine-Switch-User" u))
  | none => kw

/-- Lines 142-146: prefer API-key authentication when a key is configured
and the params do not already carry one, else fall back to basic auth. -/
def Redmine.authStep (self : Redmine) (kw : List (String × KwVal)) :
    List (String × KwVal) :=
  if ¬ dContains (getPDict kw "params") "key" ∧ self.key ≠ none then
    dInsert kw "params"
      (.pDict (dInsert (getPDict kw "params") "key" (.s (self.key.getD ""))))
  else
    dInsert kw "auth" (.auth self.username self.password)

/-- Lines 129-146 of `Redmine.request`: build the keyword-argument dict
handed to the HTTP client.  The error case is the TypeError `json.dumps`
raises on non-serializable data. -/
def Redmine.prepareKwargs (self : Redmine) (method : String)
    (headers : Option (List (String × String))) (params : Option (List (String × PVal)))
    (data : PyData) : Except RedmineExc (List (String × KwVal)) :=
  match serializeStep method data (self.baseKwargs headers params data) with
  | .error e => .error e
  | .ok kw1 => .ok (self.authStep (self.impersonateStep kw1))

/-- Lines 150-178 of `Redmine.request`: translate the HTTP response into
a return value or a raised exception, in the exact order of the source's
if/elif chain. -/
def Redmine.handleResponse (self : Redmine) (response : Response)
    (raw_response : Bool) : Except RedmineExc ReqResult :=
  if response.status_code = 200 ∨ response.status_code = 201 then
    if raw_response then
      .ok (.raw response)
    else if contentBlank response.content then
      .ok (.bool true)
    else
      match response.json with
      | some j => .ok (.json j)
      | none => .error (.JSONDecodeError response)
  else if response.status_code = 401 then
    .error .AuthError
  else if response.status_code = 403 then
    .error .ForbiddenError
  else if response.status_code = 404 then
    .error .ResourceNotFoundError
  else if response.status_code = 409 then
    .error .ConflictError
  else if response.status_code = 412 ∧ self.impersonate ≠ none then
    .error .ImpersonateError
  else if response.status_code = 413 then
    .error .RequestEntityTooLargeError
  else if response.status_code = 422 then
    match response.json with
    | none => .error (.pyError "ValueError: invalid JSON body")
    | some j =>
        match jGet j "errors" with
        | none => .error (.pyError "KeyError or TypeError: no errors entry")
        | some (JVal.arr es) =>
            match joinErrors es with
            | some msg => .error (.ValidationError msg)
            | none => .error (.pyError "TypeError: non-string error item")
        | some _ => .error (.pyError "TypeError: errors is not iterable as expected")
  else if response.status_code = 500 then
    .error .ServerError
  else
    .error (.UnknownError response.status_code)

/-- The external HTTP client `requests`: `getattr(requests, method)(url,
**kwargs)` is an oracle from method, url and keyword arguments to a
response. -/
def Http : Type := String → String → List (String × KwVal) → Response

/-- `Redmine.request` (lines 117-178).  Returns the result (or raised
exception) together with the post-call state of the instance; the method
body assigns to no attribute of `self`, so the instance is returned as
it came in. -/
def Redmine.request (self : Redmine) (http : Http) (method url : String)
    (headers : Option (List (String × String)) := none)
    (params : Option (List (String × PVal)) := none)
    (data : PyData := .none) (raw_response : Bool := false) :
    Except RedmineExc ReqResult × Redmine :=
  match self.prepareKwargs method headers params data with
  | .error e => (.error e, self)
  | .ok kw => (self.handleResponse (http method url kw) raw_response, self)

/-- Modelled from the spec: `managers.ResourceManager` is not under the
sources checked here, only its construction site in `Redmine.__getattr__`
is.  The spec describes it as "a generic resource manager invoked via
dynamic attribute access" bound to the entry point and the accessed
resource name, on which CRUD-style calls are later made. -/
structure ResourceManager : Type where
  redmine : Redmine
  resource_name : String

/-- Python `resource_name.startswith('_')`: the first character is an
underscore. -/
def startsWithUnderscore (s : String) : Bool :=
  match s.data with
  | [] => false
  | c :: _ => c = '_'

/-- `Redmine.__getattr__` (lines 47-56): names starting with an
underscore raise AttributeError, every other name yields a
`ResourceManager` bound to the instance and the name. -/
def Redmine.getattr (self : Redmine) (resource_name : String) :
    Except Unit ResourceManager :=
  if startsWithUnderscore resource_name then
    .error ()
  else
    .ok ⟨self, resource_name⟩

/-- One component of a `distutils.version.LooseVersion`: an integer or a
string fragment. -/
inductive VComp : Type where
  | num : Nat → VComp
  | str : String → VComp

/-- Character classes of `LooseVersion.component_re`
(`(\d+ | [a-z]+ | \.)`): digit runs, lowercase-letter runs, single dots,
and everything else as unmatched chunks. -/
def vCharClass (c : Char) : Nat :=
  if c.isDigit then 0
  else if 'a' ≤ c ∧ c ≤ 'z' then 1
  else if c = '.' then 2
  else 3

/-- Group a character list into maximal runs of equal `vCharClass`. -/
def vGroup : List Char → List (Nat × List Char)
  | [] => []
  | c :: cs =>
      match vGroup cs with
      | [] => [(vCharClass c, [c])]
      | (cls, run) :: rest =>
          if vCharClass c = cls then (cls, c :: run) :: rest
          else (vCharClass c, [c]) :: (cls, run) :: rest

/-- Numeric value of a digit run (`int` on a digit string). -/
def digitsToNat (cs : List Char) : Nat :=
  cs.foldl (fun acc c => acc * 10 + (c.toNat - 48)) 0

/-- `LooseVersion.parse`: split on the component pattern, drop dots and
empty pieces, convert digit runs to integers, keep the rest as strings. -/
def looseParse (s : String) : List VComp :=
  (vGroup s.data).filterMap fun p =>
    match p.1 with
    | 0 => some (.num (digitsToNat p.2))
    | 2 => none
    | _ => some (.str (String.mk p.2))

/-- Ordering of version components under Python list comparison; integer
versus string components are ordered int-first (CPython 2 semantics,
which this library targets; the mixed case is never exercised by dotted
numeric versions). -/
def VComp.cmp : VComp → VComp → Ordering
  | .num a, .num b => compare a b
  | .str a, .str b => compare a b
  | .num _, .str _ => .lt
  | .str _, .num _ => .gt

/-- Python lexicographic list comparison, strict less-than. -/
def vListLt : List VComp → List VComp → Bool
  | [], [] => false
  | [], _ :: _ => true
  | _ :: _, [] => false
  | a :: as', b :: bs =>
      match a.cmp b with
      | .lt => true
      | .gt => false
      | .eq => vListLt as' bs

/-- `LooseVersion(a) < LooseVersion(b)`. -/
def looseLt (a b : String) : Bool :=
  vListLt (looseParse a) (looseParse b)

/-- The filesystem oracle for `open(filepath, 'rb')`: the file's
contents, or `none` when opening raises IOError. -/
def Fs : Type := String → Option String

/-- `Redmine.upload` (lines 58-74): refuse on a configured version below
1.4.0, translate a failing `open` to NoFileError, otherwise POST the
stream to `<url>/uploads.json` with an octet-stream Content-Type and
index the decoded response at `['upload']['token']` (a failure of that
subscript is a Python-level error). -/
def Redmine.upload (self : Redmine) (http : Http) (fs : Fs)
    (filepath : String) : Except RedmineExc JVal × Redmine :=
  if (match self.ver with
      | some v => looseLt v "1.4.0"
      | none => false) then
    (.error (.VersionMismatchError "File uploading"), self)
  else
    match fs filepath with
    | none => (.error .NoFileError, self)
    | some content =>
        match self.request http "post" (self.url ++ "/uploads.json")
          (some [("Content-Type", "application/octet-stream")]) none
          (.stream content) false with
        | (.error e, s) => (.error e, s)
        | (.ok res, s) =>
            match (match res with
                   | .json j => jGet j "upload"
                   | _ => none) with
            | none => (.error (.pyError "TypeError or KeyError: no upload entry"), s)
            | some up =>
                match jGet up "token" with
                | none => (.error (.pyError "TypeError or KeyError: no token entry"), s)
                | some tok => (.ok tok, s)

/-- Characters before the first occurrence of `c`. -/
def takeUntilChar (c : Char) : List Char → List Char
  | [] => []
  | x :: xs => if x = c then [] else x :: takeUntilChar c xs

/-- The characters after the first `://`, when present. -/
def afterSchemeMarker : List Char → Option (List Char)
  | ':' :: '/' :: '/' :: rest => some rest
  | _ :: rest => afterSchemeMarker rest
  | [] => none

/-- Drop the authority: everything from the first `/` on. -/
def dropUntilSlash : List Char → List Char
  | [] => []
  | x :: xs => if x = '/' then x :: xs else dropUntilSlash xs

/-- Python `s.split('/')` on a character list. -/
def splitOnSlash : List Char → List (List Char)
  | [] => [[]]
  | x :: xs =>
      if x = '/' then [] :: splitOnSlash xs
      else
        match splitOnSlash xs with
        | [] => [[x]]
        | g :: gs => (x :: g) :: gs

/-- Last element of a list, or the default for an empty list. -/
def lastD {α : Type} (d : α) : List α → α
  | [] => d
  | [x] => x
  | _ :: xs => lastD d xs

/-- The path component of `urlsplit(url)` (scheme://netloc/path?query#frag):
strip the fragment and query; when a `://` marker is present the path
starts at the first slash after the authority, otherwise the whole
remainder is the path. -/
def urlsplitPath (url : String) : String :=
  match afterSchemeMarker (takeUntilChar '?' (takeUntilChar '#' url.data)) with
  | some rest => String.mk (dropUntilSlash rest)
  | none => String.mk (takeUntilChar '?' (takeUntilChar '#' url.data))

/-- `urlsplit(url)[2].split('/')[-1]`: the last segment of the URL path. -/
def lastPathSegment (url : String) : String :=
  String.mk (lastD [] (splitOnSlash (urlsplitPath url).data))

/-- What `Redmine.download` produces: the request's result returned
as-is when no savepath is given, or the joined save path together with
the bytes written there (`iter_content` chunks concatenated). -/
inductive DlResult : Type where
  | result : ReqResult → DlResult
  | saved : String → String → DlResult

/-- POSIX `os.path.join` on two components: an absolute second component
replaces the first; otherwise the two are joined with exactly one slash. -/
def ospJoin (a b : String) : String :=
  match b.data with
  | '/' :: _ => b
  | _ =>
      match a.data with
      | [] => b
      | cs => if lastD ' ' cs = '/' then a ++ b else a ++ "/" ++ b

/-- `Redmine.download` (lines 76-109): a streaming GET through
`Redmine.request` with `raw_response=True`; without a savepath the
response is returned directly, otherwise the filename defaults to the
last segment of the URL's path (FileUrlError when that is empty) and
the content is written to the joined path, which is returned. -/
def Redmine.download (self : Redmine) (http : Http) (url : String)
    (savepath : Option String := none) (filename : Option String := none)
    (params : Option (List (String × PVal)) := none) :
    Except RedmineExc DlResult × Redmine :=
  match self.request http "get" url none
    (some (dMerge (params.getD []) [("stream", .b true)])) .none true with
  | (.error e, s) => (.error e, s)
  | (.ok res, s) =>
      match savepath with
      | none => (.ok (.result res), s)
      | some sp =>
          match (match filename with
                 | some f => Except.ok f
                 | none =>
                     if lastPathSegment url = "" then
                       Except.error RedmineExc.FileUrlError
                     else
                       Except.ok (lastPathSegment url)) with
          | .error e => (.error e, s)
          | .ok f =>
              match res with
              | .raw response => (.ok (.saved (ospJoin sp f) response.content), s)
              | _ => (.error (.pyError "AttributeError: no iter_content"), s)

/-- A concrete configuration with an API key, used as input in witness
theorems. -/
def demoRm : Redmine :=
  { url := "http://demo", key := some "SECRET", ver := none,
    username := some "alice", password := some "pw", requests := [],
    impersonate := none, date_format := "%Y-%m-%d",
    datetime_format := "%Y-%m-%dT%H:%M:%SZ", raise_attr_exception := true,
    resource_paths := none }

/-- The concrete configuration without an API key (basic-auth fallback). -/
def basicRm : Redmine := { demoRm with key := none }

/-- The concrete configuration with impersonation enabled. -/
def impRm : Redmine := { demoRm with impersonate := some "bob" }

/-- An HTTP oracle answering every request with one fixed response. -/
def constHttp (r : Response) : Http := fun _ _ _ => r

theorem dLookup_map_update_self {α : Type} (d : List (String × α)) (k : String) (v : α)
    (h : dContains d k = true) :
    dLookup (d.map (fun p => if p.1 = k then (k, v) else p)) k = some v := by
  induction d with
  | nil => simp [dContains, dLookup] at h
  | cons p d ih =>
      by_cases hp : p.1 = k
      · simp [dLookup, hp]
      · have h' : dContains d k = true := by
          simpa [dContains, dLookup, hp] using h
        simpa [dLookup, hp] using ih h'

theorem dLookup_append_single_self {α : Type} (d : List (String × α)) (k : String) (v : α)
    (h : dContains d k = false) :
    dLookup (d ++ [(k, v)]) k = some v := by
  induction d with
  | nil => simp [dLookup]
  | cons p d ih =>
      by_cases hp : p.1 = k
      · simp [dContains, dLookup, hp] at h
      · have h' : dContains d k = false := by
          simpa [dContains, dLookup, hp] using h
        simpa [dLookup, hp] using ih h'

/-- Looking up the key just written finds the written value. -/
theorem dLookup_dInsert_self {α : Type} (d : List (String × α)) (k : String) (v : α) :
    dLookup (dInsert d k v) k = some v := by
  by_cases h : dContains d k = true
  · rw [dInsert, if_pos h]
    exact dLookup_map_update_self d k v h
  · rw [dInsert, if_neg h]
    exact dLookup_append_single_self d k v (by simpa using h)

theorem dLookup_map_update_ne {α : Type} (d : List (String × α)) (k k' : String) (v : α)
    (hne : k ≠ k') :
    dLookup (d.map (fun p => if p.1 = k then (k, v) else p)) k' = dLookup d k' := by
  induction d with
  | nil => simp [dLookup]
  | cons p d ih =>
      by_cases hp : p.1 = k
      · have hkk : ¬ (k = k') := hne
        simp [dLookup, hp, hkk, ih]
      · simp [dLookup, hp, ih]

theorem dLookup_append_single_ne {α : Type} (d : List (String × α)) (k k' : String) (v : α)
    (hne : k ≠ k') :
    dLookup (d ++ [(k, v)]) k' = dLookup d k' := by
  induction d with
  | nil => simp [dLookup, hne]
  | cons p d ih =>
      by_cases hp : p.1 = k'
      · simp [dLookup, hp]
      · simp [dLookup, hp, ih]

/-- Writing one key leaves lookups of any other key unchanged. -/
theorem dLookup_dInsert_ne {α : Type} (d : List (String × α)) (k k' : String) (v : α)
    (hne : k ≠ k') :
    dLookup (dInsert d k v) k' = dLookup d k' := by
  by_cases h : dContains d k = true
  · rw [dInsert, if_pos h]
    exact dLookup_map_update_ne d k k' v hne
  · rw [dInsert, if_neg h]
    exact dLookup_append_single_ne d k k' v hne


theorem getHDict_dInsert_ne (kw : List (String × KwVal)) (k k' : String) (v : KwVal)
    (hne : k ≠ k') : getHDict (dInsert kw k v) k' = getHDict kw k' := by
  unfold getHDict
  rw [dLookup_dInsert_ne _ _ _ _ hne]

theorem getHDict_dInsert_self (kw : List (String × KwVal)) (k : String)
    (d : List (String × String)) : getHDict (dInsert kw k (.hDict d)) k = d := by
  unfold getHDict
  rw [dLookup_dInsert_self]

theorem getPDict_dInsert_ne (kw : List (String × KwVal)) (k k' : String) (v : KwVal)
    (hne : k ≠ k') : getPDict (dInsert kw k v) k' = getPDict kw k' := by
  unfold getPDict
  rw [dLookup_dInsert_ne _ _ _ _ hne]

theorem getPDict_dInsert_self (kw : List (String × KwVal)) (k : String)
    (d : List (String × PVal)) : getPDict (dInsert kw k (.pDict d)) k = d := by
  unfold getPDict
  rw [dLookup_dInsert_self]

/-- The merged kwargs dict is three nested key writes over `self.requests`. -/
theorem Redmine.baseKwargs_eq (self : Redmine) (h : Option (List (String × String)))
    (p : Option (List (String × PVal))) (d : PyData) :
    self.baseKwargs h p d =
      dInsert (dInsert (dInsert self.requests "headers" (.hDict (h.getD [])))
        "params" (.pDict (p.getD []))) "data" (.pydata (pyDataOrEmpty d)) := rfl

/-- Whatever `self.requests` holds, the merge pins `kwargs['headers']`. -/
theorem getHDict_baseKwargs (self : Redmine) (h : Option (List (String × String)))
    (p : Option (List (String × PVal))) (d : PyData) :
    getHDict (self.baseKwargs h p d) "headers" = h.getD [] := by
  rw [self.baseKwargs_eq, getHDict_dInsert_ne _ _ _ _ (by decide),
    getHDict_dInsert_ne _ _ _ _ (by decide), getHDict_dInsert_self]

/-- Whatever `self.requests` holds, the merge pins `kwargs['params']`. -/
theorem getPDict_baseKwargs (self : Redmine) (h : Option (List (String × String)))
    (p : Option (List (String × PVal))) (d : PyData) :
    getPDict (self.baseKwargs h p d) "params" = p.getD [] := by
  rw [self.baseKwargs_eq, getPDict_dInsert_ne _ _ _ _ (by decide),
    getPDict_dInsert_self]

/-- Whatever `self.requests` holds, the merge pins `kwargs['data']`. -/
theorem dLookup_baseKwargs_data (self : Redmine) (h : Option (List (String × String)))
    (p : Option (List (String × PVal))) (d : PyData) :
    dLookup (self.baseKwargs h p d) "data" = some (.pydata (pyDataOrEmpty d)) := by
  rw [self.baseKwargs_eq, dLookup_dInsert_self]

theorem serializeStep_skip_ct (method : String) (data : PyData) (kw : List (String × KwVal))
    (h : dContains (getHDict kw "headers") "Content-Type" = true) :
    serializeStep method data kw = .ok kw := by
  unfold serializeStep
  rw [if_neg]
  simp [h]

theorem serializeStep_skip_method (method : String) (data : PyData) (kw : List (String × KwVal))
    (h : ¬ (method = "post" ∨ method = "put")) :
    serializeStep method data kw = .ok kw := by
  unfold serializeStep
  rw [if_neg]
  simp [h]

theorem serializeStep_serialize (method : String) (data : PyData) (kw : List (String × KwVal))
    (s : String) (h1 : dContains (getHDict kw "headers") "Content-Type" = false)
    (h2 : method = "post" ∨ method = "put") (h3 : pyDumps data = some s) :
    serializeStep method data kw =
      .ok (dInsert (dInsert kw "data" (.str s)) "headers"
        (KwVal.hDict (dInsert (getHDict kw "headers") "Content-Type" "application/json"))) := by
  unfold serializeStep
  rw [if_pos (by simp [h1, h2]), h3]

theorem serializeStep_typeerror (method : String) (data : PyData) (kw : List (String × KwVal))
    (h1 : dContains (getHDict kw "headers") "Content-Type" = false)
    (h2 : method = "post" ∨ method = "put") (h3 : pyDumps data = none) :
    serializeStep method data kw = .error (.pyError "TypeError: not JSON serializable") := by
  unfold serializeStep
  rw [if_pos (by simp [h1, h2]), h3]

/-- Serialization never touches `kwargs['params']`. -/
theorem serializeStep_getPDict (method : String) (data : PyData)
    (kw kw' : List (String × KwVal)) (h : serializeStep method data kw = .ok kw') :
    getPDict kw' "params" = getPDict kw "params" := by
  unfold serializeStep at h
  split at h
  · cases h3 : pyDumps data with
    | none => rw [h3] at h; cases h
    | some s =>
        rw [h3] at h
        cases h
        rw [getPDict_dInsert_ne _ _ _ _ (by decide), getPDict_dInsert_ne _ _ _ _ (by decide)]
  · cases h
    rfl

/-- Impersonation never touches `kwargs['params']`. -/
theorem impersonateStep_getPDict (self : Redmine) (kw : List (String × KwVal)) :
    getPDict (self.impersonateStep kw) "params" = getPDict kw "params" := by
  unfold Redmine.impersonateStep
  cases self.impersonate with
  | none => rfl
  | some u => rw [getPDict_dInsert_ne _ _ _ _ (by decide)]

/-- Impersonation never touches `kwargs['data']`. -/
theorem impersonateStep_data (self : Redmine) (kw : List (String × KwVal)) :
    dLookup (self.impersonateStep kw) "data" = dLookup kw "data" := by
  unfold Redmine.impersonateStep
  cases self.impersonate with
  | none => rfl
  | some u => rw [dLookup_dInsert_ne _ _ _ _ (by decide)]

/-- Impersonation only adds the switch-user header: any other header
entry is unchanged. -/
theorem impersonateStep_header (self : Redmine) (kw : List (String × KwVal))
    (ct : String) (hne : ct ≠ "X-Redmine-Switch-User") :
    dLookup (getHDict (self.impersonateStep kw) "headers") ct =
      dLookup (getHDict kw "headers") ct := by
  unfold Redmine.impersonateStep
  cases self.impersonate with
  | none => rfl
  | some u =>
      rw [getHDict_dInsert_self, dLookup_dInsert_ne _ _ _ _ (Ne.symm hne)]

theorem authStep_key (self : Redmine) (kw : List (String × KwVal)) (k : String)
    (hk : self.key = some k) (hnc : dContains (getPDict kw "params") "key" = false) :
    self.authStep kw =
      dInsert kw "params" (.pDict (dInsert (getPDict kw "params") "key" (.s k))) := by
  unfold Redmine.authStep
  rw [if_pos (by simp [hk, hnc]), hk]
  rfl

theorem authStep_basic (self : Redmine) (kw : List (String × KwVal))
    (h : self.key = none ∨ dContains (getPDict kw "params") "key" = true) :
    self.authStep kw = dInsert kw "auth" (.auth self.username self.password) := by
  unfold Redmine.authStep
  rw [if_neg]
  rcases h with h | h <;> simp [h]

/-- Authentication never touches `kwargs['data']`. -/
theorem authStep_data (self : Redmine) (kw : List (String × KwVal)) :
    dLookup (self.authStep kw) "data" = dLookup kw "data" := by
  unfold Redmine.authStep
  split
  · rw [dLookup_dInsert_ne _ _ _ _ (by decide)]
  · rw [dLookup_dInsert_ne _ _ _ _ (by decide)]

/-- Authentication never touches `kwargs['headers']`. -/
theorem authStep_headers (self : Redmine) (kw : List (String × KwVal)) :
    getHDict (self.authStep kw) "headers" = getHDict kw "headers" := by
  unfold Redmine.authStep
  split
  · rw [getHDict_dInsert_ne _ _ _ _ (by decide)]
  · rw [getHDict_dInsert_ne _ _ _ _ (by decide)]


/-- Authentication can only add a `key` entry to the params: every other
params entry is unchanged. -/
theorem authStep_params_other (self : Redmine) (kw : List (String × KwVal))
    (k' : String) (h : k' ≠ "key") :
    dLookup (getPDict (self.authStep kw) "params") k' =
      dLookup (getPDict kw "params") k' := by
  unfold Redmine.authStep
  split
  · rw [getPDict_dInsert_self, dLookup_dInsert_ne _ _ _ _ (Ne.symm h)]
  · rw [getPDict_dInsert_ne _ _ _ _ (by decide)]

/-- When the caller's headers already carry a Content-Type, preparation
always succeeds and is just the auth and impersonation steps. -/
theorem prepareKwargs_ok_of_ct (self : Redmine) (method : String)
    (headers : Option (List (String × String))) (params : Option (List (String × PVal)))
    (data : PyData) (h : dContains (headers.getD []) "Content-Type" = true) :
    self.prepareKwargs method headers params data =
      .ok (self.authStep (self.impersonateStep (self.baseKwargs headers params data))) := by
  unfold Redmine.prepareKwargs
  rw [serializeStep_skip_ct method data _ (by rw [getHDict_baseKwargs]; exact h)]

/-- For a bodyless method, preparation always succeeds and is just the
auth and impersonation steps. -/
theorem prepareKwargs_ok_of_method (self : Redmine) (method : String)
    (headers : Option (List (String × String))) (params : Option (List (String × PVal)))
    (data : PyData) (h : ¬ (method = "post" ∨ method = "put")) :
    self.prepareKwargs method headers params data =
      .ok (self.authStep (self.impersonateStep (self.baseKwargs headers params data))) := by
  unfold Redmine.prepareKwargs
  rw [serializeStep_skip_method method data _ h]

/-- `Redmine.request` dispatches exactly the prepared kwargs to the HTTP
client and hands the response to the status-code switch. -/
theorem request_eq (self : Redmine) (http : Http) (method url : String)
    (headers : Option (List (String × String))) (params : Option (List (String × PVal)))
    (data : PyData) (raw : Bool) (kw : List (String × KwVal))
    (hok : self.prepareKwargs method headers params data = .ok kw) :
    self.request http method url headers params data raw =
      (self.handleResponse (http method url kw) raw, self) := by
  unfold Redmine.request
  rw [hok]

/-- A 200/201 response with a non-blank decodable body yields its JSON. -/
theorem handleResponse_ok_json (self : Redmine) (r : Response)
    (hs : r.status_code = 200 ∨ r.status_code = 201)
    (hb : contentBlank r.content = false) (j : JVal) (hj : r.json = some j) :
    self.handleResponse r false = .ok (.json j) := by
  rcases hs with h | h <;> simp [Redmine.handleResponse, h, hb, hj]

/-- A 200/201 response under `raw_response=True` is returned unchanged. -/
theorem handleResponse_ok_raw (self : Redmine) (r : Response)
    (hs : r.status_code = 200 ∨ r.status_code = 201) :
    self.handleResponse r true = .ok (.raw r) := by
  rcases hs with h | h <;> simp [Redmine.handleResponse, h]

/-- C1: for every HTTP response received by `Redmine.request`, the status
code is translated into a typed exception: 401 AuthError, 403
ForbiddenError, 404 ResourceNotFoundError, 409 ConflictError, 413
RequestEntityTooLargeError, 422 ValidationError carrying the messages
joined from the JSON body's `errors` list, 500 ServerError, and any
status code not otherwise handled UnknownError carrying that status. -/
theorem c1_status_code_taxonomy (self : Redmine) (r : Response) (raw : Bool) :
    (r.status_code = 401 → self.handleResponse r raw = .error .AuthError)
  ∧ (r.status_code = 403 → self.handleResponse r raw = .error .ForbiddenError)
  ∧ (r.status_code = 404 → self.handleResponse r raw = .error .ResourceNotFoundError)
  ∧ (r.status_code = 409 → self.handleResponse r raw = .error .ConflictError)
  ∧ (r.status_code = 413 → self.handleResponse r raw = .error .RequestEntityTooLargeError)
  ∧ (∀ j es msg, r.status_code = 422 → r.json = some j →
      jGet j "errors" = some (.arr es) → joinErrors es = some msg →
      self.handleResponse r raw = .error (.ValidationError msg))
  ∧ (r.status_code = 500 → self.handleResponse r raw = .error .ServerError)
  ∧ (r.status_code ∉ ([200, 201, 401, 403, 404, 409, 413, 422, 500] : List Nat) →
      (r.status_code = 412 → self.impersonate = none) →
      self.handleResponse r raw = .error (.UnknownError r.status_code)) := by
  refine ⟨?_, ?_, ?_, ?_, ?_, ?_, ?_, ?_⟩
  · intro h; simp [Redmine.handleResponse, h]
  · intro h; simp [Redmine.handleResponse, h]
  · intro h; simp [Redmine.handleResponse, h]
  · intro h; simp [Redmine.handleResponse, h]
  · intro h; simp [Redmine.handleResponse, h]
  · intro j es msg h hj hg hjoin
    simp [Redmine.handleResponse, h, hj, hg, hjoin]
  · intro h; simp [Redmine.handleResponse, h]
  · intro hn h412
    simp only [List.mem_cons, List.not_mem_nil, or_false] at hn
    push_neg at hn
    obtain ⟨h200, h201, h401, h403, h404, h409, h413, h422, h500⟩ := hn
    by_cases h412' : r.status_code = 412
    · simp [Redmine.handleResponse, h200, h201, h401, h403, h404, h409, h413,
        h422, h500, h412', h412 h412']
    · simp [Redmine.handleResponse, h200, h201, h401, h403, h404, h409, h413,
        h422, h500, h412']

/-- Witness for C1 at concrete responses: a 401, a 422 with one error
message, and an unhandled 418. -/
theorem c1_status_code_taxonomy_witness :
    (demoRm.handleResponse { status_code := 401, content := "", json := none } false
      = .error .AuthError)
  ∧ (demoRm.handleResponse
      { status_code := 422, content := "e",
        json := some (JVal.obj [("errors",
          JVal.arr [JVal.str "name is blank", JVal.arr [JVal.str "field", JVal.str "bad"]])]) }
      false = .error (.ValidationError "name is blank, field: bad"))
  ∧ (demoRm.handleResponse { status_code := 418, content := "", json := none } false
      = .error (.UnknownError 418)) := by
  refine ⟨(c1_status_code_taxonomy demoRm _ false).1 rfl, ?_, ?_⟩
  · exact (c1_status_code_taxonomy demoRm _ false).2.2.2.2.2.1 _ _ _ rfl rfl rfl rfl
  · exact (c1_status_code_taxonomy demoRm _ false).2.2.2.2.2.2.2 (by decide)
      (fun h => absurd h (by decide))

/-- C2: for a 200/201 response with `raw_response=False`, `Redmine.request`
returns True on a whitespace-only body, the JSON-decoded body otherwise,
and raises JSONDecodeError when decoding a non-empty body fails; with
`raw_response=True` it returns the response unchanged. -/
theorem c2_success_body_decoding (self : Redmine) (r : Response) (raw : Bool)
    (hs : r.status_code = 200 ∨ r.status_code = 201) :
    (raw = true → self.handleResponse r raw = .ok (.raw r))
  ∧ (raw = false → contentBlank r.content = true → self.handleResponse r raw = .ok (.bool true))
  ∧ (raw = false → contentBlank r.content = false → ∀ j, r.json = some j →
      self.handleResponse r raw = .ok (.json j))
  ∧ (raw = false → contentBlank r.content = false → r.json = none →
      self.handleResponse r raw = .error (.JSONDecodeError r)) := by
  refine ⟨?_, ?_, ?_, ?_⟩
  · intro hraw
    rcases hs with h | h <;> simp [Redmine.handleResponse, h, hraw]
  · intro hraw hblank
    rcases hs with h | h <;> simp [Redmine.handleResponse, h, hraw, hblank]
  · intro hraw hblank j hj
    rcases hs with h | h <;> simp [Redmine.handleResponse, h, hraw, hblank, hj]
  · intro hraw hblank hj
    rcases hs with h | h <;> simp [Redmine.handleResponse, h, hraw, hblank, hj]

/-- Witness for C2 at concrete 200 responses: raw pass-through, blank
body, JSON body, and undecodable body. -/
theorem c2_success_body_decoding_witness :
    (demoRm.handleResponse { status_code := 200, content := "x", json := none } true
      = .ok (.raw { status_code := 200, content := "x", json := none }))
  ∧ (demoRm.handleResponse { status_code := 200, content := " \t ", json := none } false
      = .ok (.bool true))
  ∧ (demoRm.handleResponse
      { status_code := 201, content := "{}", json := some (JVal.obj []) } false
      = .ok (.json (JVal.obj [])))
  ∧ (demoRm.handleResponse { status_code := 200, content := "not json", json := none } false
      = .error (.JSONDecodeError { status_code := 200, content := "not json", json := none })) := by
  refine ⟨?_, ?_, ?_, ?_⟩
  · exact (c2_success_body_decoding demoRm _ true (Or.inl rfl)).1 rfl
  · exact (c2_success_body_decoding demoRm _ false (Or.inl rfl)).2.1 rfl (by decide)
  · exact (c2_success_body_decoding demoRm _ false (Or.inr rfl)).2.2.1 rfl (by decide) _ rfl
  · exact (c2_success_body_decoding demoRm _ false (Or.inl rfl)).2.2.2 rfl (by decide) rfl

/-- C9: a 412 response raises ImpersonateError only when impersonation is
configured; with `impersonate=None` it falls through to UnknownError 412. -/
theorem c9_412_impersonate_gating (self : Redmine) (r : Response) (raw : Bool)
    (h : r.status_code = 412) :
    (self.impersonate ≠ none → self.handleResponse r raw = .error .ImpersonateError)
  ∧ (self.impersonate = none → self.handleResponse r raw = .error (.UnknownError 412)) := by
  constructor
  · intro himp
    simp [Redmine.handleResponse, h, himp]
  · intro himp
    simp [Redmine.handleResponse, h, himp]

/-- Witness for C9 at a concrete 412 response, with and without an
impersonated user configured. -/
theorem c9_412_impersonate_gating_witness :
    (impRm.handleResponse { status_code := 412, content := "", json := none } false
      = .error .ImpersonateError)
  ∧ (demoRm.handleResponse { status_code := 412, content := "", json := none } false
      = .error (.UnknownError 412)) :=
  ⟨(c9_412_impersonate_gating impRm _ false rfl).1 (by decide),
   (c9_412_impersonate_gating demoRm _ false rfl).2 rfl⟩

/-- C4: attribute access for any name not starting with an underscore
yields a `ResourceManager` bound to the instance and that very name,
with no validation of the name. -/
theorem c4_getattr_resource_manager (self : Redmine) (name : String)
    (h : startsWithUnderscore name = false) :
    self.getattr name = .ok ⟨self, name⟩ := by
  unfold Redmine.getattr
  rw [if_neg]
  simp [h]

/-- Witness for C4 at the arbitrary resource name "whatever". -/
theorem c4_getattr_resource_manager_witness :
    demoRm.getattr "whatever" = .ok ⟨demoRm, "whatever"⟩ :=
  c4_getattr_resource_manager demoRm "whatever" (by decide)

/-- C10: attribute access for any name starting with an underscore
raises AttributeError instead of producing a manager. -/
theorem c10_getattr_underscore_error (self : Redmine) (name : String)
    (h : startsWithUnderscore name = true) :
    self.getattr name = .error () := by
  unfold Redmine.getattr
  rw [if_pos h]

/-- Witness for C10 at the name "_private". -/
theorem c10_getattr_underscore_error_witness :
    demoRm.getattr "_private" = .error () :=
  c10_getattr_underscore_error demoRm "_private" (by decide)

/-- C6: `Redmine.request` never mutates the connection configuration:
every field of the instance is unchanged whether the call returns a
result or an error. -/
theorem c6_request_preserves_configuration (self : Redmine) (http : Http)
    (method url : String) (headers : Option (List (String × String)))
    (params : Option (List (String × PVal))) (data : PyData) (raw : Bool) :
    let post := (self.request http method url headers params data raw).2
    post.url = self.url ∧ post.key = self.key ∧ post.ver = self.ver
    ∧ post.username = self.username ∧ post.password = self.password
    ∧ post.requests = self.requests ∧ post.impersonate = self.impersonate
    ∧ post.date_format = self.date_format
    ∧ post.datetime_format = self.datetime_format
    ∧ post.raise_attr_exception = self.raise_attr_exception
    ∧ post.resource_paths = self.resource_paths := by
  have hsnd : (self.request http method url headers params data raw).2 = self := by
    unfold Redmine.request
    split <;> rfl
  simp [hsnd]

/-- Inversion of `prepareKwargs`: a successful preparation is the auth
and impersonation steps over a successful serialization step. -/
theorem prepareKwargs_ok_inv (self : Redmine) (method : String)
    (headers : Option (List (String × String))) (params : Option (List (String × PVal)))
    (data : PyData) (kw : List (String × KwVal))
    (hok : self.prepareKwargs method headers params data = .ok kw) :
    ∃ kw1, serializeStep method data (self.baseKwargs headers params data) = .ok kw1
      ∧ kw = self.authStep (self.impersonateStep kw1) := by
  unfold Redmine.prepareKwargs at hok
  split at hok
  · cases hok
  · rename_i kw1 hser
    injection hok with h
    exact ⟨kw1, hser, h.symm⟩

/-- C3: with an API key configured and no caller-supplied `key` param,
the key is attached to the outgoing params; in every other case the
basic-auth pair `(username, password)` is attached instead. -/
theorem c3_api_key_over_basic_auth (self : Redmine) (method : String)
    (headers : Option (List (String × String))) (params : Option (List (String × PVal)))
    (data : PyData) (kw : List (String × KwVal))
    (hok : self.prepareKwargs method headers params data = .ok kw) :
    (∀ k, self.key = some k → dContains (params.getD []) "key" = false →
      dLookup (getPDict kw "params") "key" = some (.s k))
  ∧ ((self.key = none ∨ dContains (params.getD []) "key" = true) →
      dLookup kw "auth" = some (.auth self.username self.password)) := by
  obtain ⟨kw1, hser, hkw⟩ := prepareKwargs_ok_inv self method headers params data kw hok
  have hp2 : getPDict (self.impersonateStep kw1) "params" = params.getD [] := by
    rw [impersonateStep_getPDict, serializeStep_getPDict _ _ _ _ hser, getPDict_baseKwargs]
  subst hkw
  constructor
  · intro k hk hnc
    rw [authStep_key self _ k hk (by rw [hp2]; exact hnc), getPDict_dInsert_self,
      dLookup_dInsert_self]
  · intro h
    have h' : self.key = none
        ∨ dContains (getPDict (self.impersonateStep kw1) "params") "key" = true := by
      rcases h with h | h
      · exact Or.inl h
      · exact Or.inr (by rw [hp2]; exact h)
    rw [authStep_basic self _ h', dLookup_dInsert_self]

/-- Witness for C3: with the demo key and no `key` param the key is sent;
with a caller-supplied `key` param basic auth is sent instead. -/
theorem c3_api_key_over_basic_auth_witness :
    (∃ kw, demoRm.prepareKwargs "get" none none PyData.none = .ok kw
      ∧ dLookup (getPDict kw "params") "key" = some (.s "SECRET"))
  ∧ (∃ kw, demoRm.prepareKwargs "get" none (some [("key", .s "CALLER")]) PyData.none = .ok kw
      ∧ dLookup kw "auth" = some (.auth (some "alice") (some "pw"))) := by
  constructor
  · exact ⟨_, rfl, (c3_api_key_over_basic_auth demoRm "get" none none PyData.none _ rfl).1
      "SECRET" rfl (by decide)⟩
  · exact ⟨_, rfl, (c3_api_key_over_basic_auth demoRm "get" none
      (some [("key", .s "CALLER")]) PyData.none _ rfl).2 (Or.inr (by decide))⟩

/-- Counterexample to C5 as stated: for a `get` call with `data=b''`
(empty bytes, a concrete value of the documented bytes type), the data
handed to the HTTP client is an empty dict, not the unserialized empty
bytes: `data or {}` replaces every falsy data value, not only `None`. -/
theorem c5_counterexample :
    basicRm.prepareKwargs "get" none none (PyData.bytes "") =
      .ok [("headers", .hDict []), ("params", .pDict []),
           ("data", .pydata (.dict [])),
           ("auth", .auth (some "alice") (some "pw"))]
    ∧ PyData.dict ([] : List (String × JVal)) ≠ PyData.bytes "" :=
  ⟨rfl, by simp⟩

/-- C5 (amended): for `post`/`put` without a caller Content-Type header
and JSON-serializable data, the body sent is the JSON serialization of
the data argument (including `None`, serialized as `"null"`) and the
Content-Type header is set to application/json; for any other method or
with a caller Content-Type, the data is passed through unserialized,
with falsy data (`None`, empty dict, empty bytes) replaced by `{}`. -/
theorem c5_body_serialization (self : Redmine) (method : String)
    (headers : Option (List (String × String))) (params : Option (List (String × PVal)))
    (data : PyData) :
    (dContains (headers.getD []) "Content-Type" = false →
     (method = "post" ∨ method = "put") →
     ∀ s, pyDumps data = some s →
       ∃ kw, self.prepareKwargs method headers params data = .ok kw
         ∧ dLookup kw "data" = some (.str s)
         ∧ dLookup (getHDict kw "headers") "Content-Type" = some "application/json")
  ∧ ((dContains (headers.getD []) "Content-Type" = true
      ∨ ¬ (method = "post" ∨ method = "put")) →
     ∃ kw, self.prepareKwargs method headers params data = .ok kw
       ∧ dLookup kw "data" = some (.pydata (pyDataOrEmpty data))) := by
  constructor
  · intro hct hm s hdump
    have hser := serializeStep_serialize method data (self.baseKwargs headers params data) s
      (by rw [getHDict_baseKwargs]; exact hct) hm hdump
    refine ⟨self.authStep (self.impersonateStep
      (dInsert (dInsert (self.baseKwargs headers params data) "data" (.str s)) "headers"
        (KwVal.hDict (dInsert (getHDict (self.baseKwargs headers params data) "headers")
          "Content-Type" "application/json")))), ?_, ?_, ?_⟩
    · unfold Redmine.prepareKwargs
      rw [hser]
    · rw [authStep_data, impersonateStep_data,
        dLookup_dInsert_ne _ _ _ _ (by decide), dLookup_dInsert_self]
    · rw [authStep_headers, impersonateStep_header _ _ _ (by decide),
        getHDict_dInsert_self, dLookup_dInsert_self]
  · intro h
    have hser : serializeStep method data (self.baseKwargs headers params data) =
        .ok (self.baseKwargs headers params data) := by
      rcases h with h | h
      · exact serializeStep_skip_ct method data _ (by rw [getHDict_baseKwargs]; exact h)
      · exact serializeStep_skip_method method data _ h
    refine ⟨self.authStep (self.impersonateStep (self.baseKwargs headers params data)),
      ?_, ?_⟩
    · unfold Redmine.prepareKwargs
      rw [hser]
    · rw [authStep_data, impersonateStep_data, dLookup_baseKwargs_data]

/-- Witness for C5 (amended): a `post` with `data=None` sends the body
`"null"` with Content-Type application/json; a `get` with `data=b''`
sends an empty dict as data. -/
theorem c5_body_serialization_witness :
    (∃ kw, demoRm.prepareKwargs "post" none none PyData.none = .ok kw
      ∧ dLookup kw "data" = some (.str "null")
      ∧ dLookup (getHDict kw "headers") "Content-Type" = some "application/json")
  ∧ (∃ kw, demoRm.prepareKwargs "get" none none (PyData.bytes "") = .ok kw
      ∧ dLookup kw "data" = some (.pydata (.dict []))) := by
  constructor
  · exact (c5_body_serialization demoRm "post" none none PyData.none).1 rfl
      (Or.inl rfl) "null" rfl
  · exact (c5_body_serialization demoRm "get" none none (PyData.bytes "")).2
      (Or.inr (by simp))

/-- C7: `Redmine.upload` raises VersionMismatchError when the configured
version is below 1.4.0, NoFileError when the file cannot be opened, and
otherwise posts the file contents to `<url>/uploads.json` through
`Redmine.request` and returns the token at `response['upload']['token']`. -/
theorem c7_upload_guards_and_token (self : Redmine) (http : Http) (fs : Fs)
    (filepath : String) :
    (∀ v, self.ver = some v → looseLt v "1.4.0" = true →
      self.upload http fs filepath = (.error (.VersionMismatchError "File uploading"), self))
  ∧ ((∀ v, self.ver = some v → looseLt v "1.4.0" = false) → fs filepath = none →
      self.upload http fs filepath = (.error .NoFileError, self))
  ∧ (∀ content resp tok,
      (∀ v, self.ver = some v → looseLt v "1.4.0" = false) →
      fs filepath = some content →
      (∀ kw, http "post" (self.url ++ "/uploads.json") kw = resp) →
      (resp.status_code = 200 ∨ resp.status_code = 201) →
      contentBlank resp.content = false →
      resp.json = some (JVal.obj [("upload", JVal.obj [("token", tok)])]) →
      self.upload http fs filepath = (.ok tok, self)) := by
  refine ⟨?_, ?_, ?_⟩
  · intro v hv hlt
    unfold Redmine.upload
    rw [if_pos (by rw [hv]; exact hlt)]
  · intro hv hfs
    have hcond : (match self.ver with
        | some v => looseLt v "1.4.0"
        | none => false) = false := by
      cases hver : self.ver with
      | none => rfl
      | some v => exact hv v hver
    unfold Redmine.upload
    rw [if_neg (by simp [hcond]), hfs]
  · intro content resp tok hv hfs hhttp hs hb hj
    have hcond : (match self.ver with
        | some v => looseLt v "1.4.0"
        | none => false) = false := by
      cases hver : self.ver with
      | none => rfl
      | some v => exact hv v hver
    have hreq := request_eq self http "post" (self.url ++ "/uploads.json")
      (some [("Content-Type", "application/octet-stream")]) none
      (.stream content) false _
      (prepareKwargs_ok_of_ct self "post" (some [("Content-Type", "application/octet-stream")])
        none (.stream content) (by decide))
    have hhr := handleResponse_ok_json self resp hs hb _ hj
    unfold Redmine.upload
    rw [if_neg (by simp [hcond])]
    simp only [hfs, hreq, hhttp, hhr]
    simp [jGet, dLookup]

/-- Witness for C7: a version below 1.4.0 refuses the upload; a missing
file raises NoFileError; with version 2.1.0 and a fixed 201 response the
token is returned. -/
theorem c7_upload_guards_and_token_witness :
    (({demoRm with ver := some "1.3.0"} : Redmine).upload
        (constHttp { status_code := 201, content := "x", json := none })
        (fun _ => some "bytes") "/tmp/f.txt"
      = (.error (.VersionMismatchError "File uploading"), {demoRm with ver := some "1.3.0"}))
  ∧ (demoRm.upload (constHttp { status_code := 201, content := "x", json := none })
        (fun _ => none) "/tmp/f.txt"
      = (.error .NoFileError, demoRm))
  ∧ (({demoRm with ver := some "2.1.0"} : Redmine).upload
        (constHttp { status_code := 201, content := "x",
                     json := some (JVal.obj
                       [("upload", JVal.obj [("token", JVal.str "tok123")])]) })
        (fun _ => some "bytes") "/tmp/f.txt"
      = (.ok (JVal.str "tok123"), {demoRm with ver := some "2.1.0"})) := by
  refine ⟨?_, ?_, ?_⟩
  · exact (c7_upload_guards_and_token _ _ _ _).1 "1.3.0" rfl (by decide)
  · exact (c7_upload_guards_and_token _ _ _ _).2.1
      (fun v hv => by simp [demoRm] at hv) rfl
  · exact (c7_upload_guards_and_token _ _ _ _).2.2 "bytes" _ (JVal.str "tok123")
      (fun v hv => by injection hv with h; rw [← h]; decide) rfl (fun _ => rfl)
      (Or.inr rfl) (by decide) rfl

/-- C8: `Redmine.download` issues a streaming GET through
`Redmine.request`; with no savepath it returns the raw response; with a
savepath and no filename it uses the last segment of the URL's path
(FileUrlError when empty); otherwise it writes the response content to
the joined path and returns that path. -/
theorem c8_download_behavior (self : Redmine) (http : Http) (url : String)
    (params : Option (List (String × PVal))) (resp : Response)
    (hhttp : ∀ kw, http "get" url kw = resp)
    (hs : resp.status_code = 200 ∨ resp.status_code = 201) :
    (∀ filename, self.download http url none filename params
      = (.ok (.result (.raw resp)), self))
  ∧ (∀ sp f, self.download http url (some sp) (some f) params
      = (.ok (.saved (ospJoin sp f) resp.content), self))
  ∧ (lastPathSegment url ≠ "" → ∀ sp,
      self.download http url (some sp) none params
        = (.ok (.saved (ospJoin sp (lastPathSegment url))
            resp.content), self))
  ∧ (lastPathSegment url = "" → ∀ sp,
      self.download http url (some sp) none params = (.error .FileUrlError, self))
  ∧ (∀ kw, self.prepareKwargs "get" none
      (some (dMerge (params.getD []) [("stream", PVal.b true)])) PyData.none = .ok kw →
      dLookup (getPDict kw "params") "stream" = some (PVal.b true)) := by
  have hreq := request_eq self http "get" url none
    (some (dMerge (params.getD []) [("stream", PVal.b true)])) PyData.none true _
    (prepareKwargs_ok_of_method self "get" none
      (some (dMerge (params.getD []) [("stream", PVal.b true)])) PyData.none (by decide))
  have hhr := handleResponse_ok_raw self resp hs
  refine ⟨?_, ?_, ?_, ?_, ?_⟩
  · intro filename
    unfold Redmine.download
    simp only [hreq, hhttp, hhr]
  · intro sp f
    unfold Redmine.download
    simp only [hreq, hhttp, hhr]
  · intro hf sp
    unfold Redmine.download
    simp only [hreq, hhttp, hhr, if_neg hf]
  · intro hf sp
    unfold Redmine.download
    simp only [hreq, hhttp, hhr, if_pos hf]
  · intro kw hok
    obtain ⟨kw1, hser, hkw⟩ := prepareKwargs_ok_inv self "get" none _ PyData.none kw hok
    subst hkw
    rw [authStep_params_other self _ "stream" (by decide), impersonateStep_getPDict,
      serializeStep_getPDict _ _ _ _ hser, getPDict_baseKwargs]
    show dLookup (dInsert (params.getD []) "stream" (PVal.b true)) "stream"
      = some (PVal.b true)
    exact dLookup_dInsert_self _ _ _

/-- Witness for C8 at a concrete URL and 200 response: raw return without
savepath, explicit filename, filename derived from the URL path, the
FileUrlError case on a trailing slash, and the stream param being sent. -/
theorem c8_download_behavior_witness :
    (demoRm.download (constHttp { status_code := 200, content := "BYTES", json := none })
        "http://demo/files/report.txt" none none none
      = (.ok (.result (.raw { status_code := 200, content := "BYTES", json := none })),
         demoRm))
  ∧ (demoRm.download (constHttp { status_code := 200, content := "BYTES", json := none })
        "http://demo/files/report.txt" (some "/tmp/dl") (some "given.bin") none
      = (.ok (.saved "/tmp/dl/given.bin" "BYTES"), demoRm))
  ∧ (demoRm.download (constHttp { status_code := 200, content := "BYTES", json := none })
        "http://demo/files/report.txt" (some "/tmp/dl") none none
      = (.ok (.saved "/tmp/dl/report.txt" "BYTES"), demoRm))
  ∧ (demoRm.download (constHttp { status_code := 200, content := "BYTES", json := none })
        "http://demo/files/" (some "/tmp/dl") none none
      = (.error .FileUrlError, demoRm))
  ∧ (∃ kw, demoRm.prepareKwargs "get" none
      (some (dMerge [] [("stream", PVal.b true)])) PyData.none = .ok kw
      ∧ dLookup (getPDict kw "params") "stream" = some (PVal.b true)) := by
  refine ⟨?_, ?_, ?_, ?_, ?_⟩
  · exact (c8_download_behavior demoRm
      (constHttp { status_code := 200, content := "BYTES", json := none })
      "http://demo/files/report.txt" none
      { status_code := 200, content := "BYTES", json := none }
      (fun _ => rfl) (Or.inl rfl)).1 none
  · exact (c8_download_behavior demoRm
      (constHttp { status_code := 200, content := "BYTES", json := none })
      "http://demo/files/report.txt" none
      { status_code := 200, content := "BYTES", json := none }
      (fun _ => rfl) (Or.inl rfl)).2.1 "/tmp/dl" "given.bin"
  · exact (c8_download_behavior demoRm
      (constHttp { status_code := 200, content := "BYTES", json := none })
      "http://demo/files/report.txt" none
      { status_code := 200, content := "BYTES", json := none }
      (fun _ => rfl) (Or.inl rfl)).2.2.1 (by decide) "/tmp/dl"
  · exact (c8_download_behavior demoRm
      (constHttp { status_code := 200, content := "BYTES", json := none })
      "http://demo/files/" none
      { status_code := 200, content := "BYTES", json := none }
      (fun _ => rfl) (Or.inl rfl)).2.2.2.1 (by decide) "/tmp/dl"
  · exact ⟨_, rfl, (c8_download_behavior demoRm
      (constHttp { status_code := 200, content := "BYTES", json := none })
      "http://demo/files/report.txt" none
      { status_code := 200, content := "BYTES", json := none }
      (fun _ => rfl) (Or.inl rfl)).2.2.2.2 _ rfl⟩

end Redminelib
